import Mathlib

/-!
Verification of the core of `pachinko-three` (src/src/main.ts).

The file shallowly embeds the two core components of the repository:

* `UserInputManager` — routes raw device events (keyboard / mouse / touch)
  to the three semantic trigger observables `Left` / `Center` / `Right`
  (main.ts lines 25–85 of the first variant; the second variant in the same
  file is byte-identical on this component).
* the spawned-sphere lifecycle — `spawnSphere` creates a sphere, applies a
  one-time force `(random()*10, -1, random()*5)`, and registers a
  per-frame observer on `scene.onBeforeRenderObservable` that disposes the
  sphere and removes the observer once `sphere.position.y < -25`
  (main.ts lines 104–125; the second variant differs only in the
  mass/restitution constants, 0.7/0.7 instead of 1.0/0.75).

Numbers are modelled as rationals, positions as `Vec3`, the JavaScript
`Mesh | null` variable `sphere` as `Option Vec3`, and the registration of
the render observer as a `Bool` flag (single body) or membership in the
observer list of the scene (multi-body model).
-/

namespace Pachinko

/-- Semantic triggers of the input layer: the three click observables
`onLeftClickedObservable` / `onCenterClickedObservable` /
`onRightClickedObservable` of `UserInputManager`. -/
inductive Trigger where
  | left
  | center
  | right
deriving DecidableEq, Repr

/-- A keyboard input event as seen by the handler registered in
the constructor of `UserInputManager`: the fields of the `keyboard` argument,
`type` (`"keydown"` for a press, `"keyup"` for a release), `code`
(`"KeyA"`, `"ArrowLeft"`, ...) and `metaKey`. -/
structure KeyboardEvent where
  type : String
  code : String
  metaKey : Bool
deriving DecidableEq, Repr

/-- The keyboard handler of `UserInputManager` (main.ts lines 40–63):
return early when `metaKey` is held; on a `keyup` event switch on
`code`, notifying the left observable for `KeyA`/`ArrowLeft`, the center
observable for `KeyS`/`KeyW`/`ArrowUp`/`ArrowDown`, the right observable
for `KeyD`/`ArrowRight`, and nothing otherwise.  The returned list is the
sequence of trigger notifications fired by the handler. -/
def routeKeyboard (e : KeyboardEvent) : List Trigger :=
  if e.metaKey then []
  else if e.type = "keyup" then
    if e.code = "KeyA" ∨ e.code = "ArrowLeft" then
      [Trigger.left]
    else if e.code = "KeyS" ∨ e.code = "KeyW" ∨ e.code = "ArrowUp" ∨ e.code = "ArrowDown" then
      [Trigger.center]
    else if e.code = "KeyD" ∨ e.code = "ArrowRight" then
      [Trigger.right]
    else []
  else []

/-- The device kinds dispatched on in
`deviceSourceManager.onDeviceConnectedObservable` (main.ts lines 37–73). -/
inductive DeviceType where
  | keyboard
  | mouse
  | touch
  | other
deriving DecidableEq, Repr

/-- A raw device event: a keyboard event, or a pointer event carrying its
DOM event type (e.g. `"pointerup"`). -/
inductive RawEvent where
  | key (e : KeyboardEvent)
  | pointer (eventType : String)
deriving DecidableEq, Repr

/-- The trigger notifications `UserInputManager` fires for one raw event on
a device of the given type.  Per the `switch` in the constructor
(main.ts lines 37–73): only `DeviceType.Keyboard` gets an
`onInputChangedObservable` handler (the keyboard router); the `Mouse` and
`Touch` cases are empty (`break`), and the default case returns, so events
from those devices fire no trigger at all. -/
def deviceEventTriggers : DeviceType → RawEvent → List Trigger
  | DeviceType.keyboard, RawEvent.key e => routeKeyboard e
  | DeviceType.keyboard, RawEvent.pointer _ => []
  | DeviceType.mouse, _ => []
  | DeviceType.touch, _ => []
  | DeviceType.other, _ => []

/-- A 3-dimensional vector (the Babylon `Vector3`), with rational
components. -/
structure Vec3 where
  x : ℚ
  y : ℚ
  z : ℚ
deriving DecidableEq, Repr

/-- The state of one spawned sphere as captured by the closure in
`spawnSphere` (main.ts lines 104–125): the local variable
`let sphere: Mesh | null` (here the position of the mesh, `none` once the code
has run `sphere.dispose(); sphere = null;`), and whether the observer
added to `scene.onBeforeRenderObservable` is still registered. -/
structure Spawned where
  sphere : Option Vec3
  observerRegistered : Bool
deriving DecidableEq, Repr

/-- The body of the per-frame observer registered by `spawnSphere`
(main.ts lines 118–124):

`if (sphere && sphere.position.y < -25) { sphere.dispose(); sphere = null;
scene.onBeforeRenderObservable.remove(observer); }`

The `sphere &&` guard means nothing happens when `sphere` is `null`;
otherwise, when the vertical position is strictly below `-25`, the sphere
is disposed, the variable is nulled and the observer is removed in the
same action. -/
def stepCheck (b : Spawned) : Spawned :=
  match b.sphere with
  | some p => if p.y < -25 then { sphere := none, observerRegistered := false } else b
  | none => b

/-- `stepCheck` instrumented with an access flag: the second component is
`true` exactly when the callback reads `sphere.position` — which, by the
short-circuit `sphere && sphere.position.y < -25`, happens only when
`sphere` is non-null. -/
def stepCheckAccess (b : Spawned) : Spawned × Bool :=
  match b.sphere with
  | some p => (if p.y < -25 then { sphere := none, observerRegistered := false } else b, true)
  | none => (b, false)

/-- The external physics step moving the (still existing) sphere: sets the
vertical coordinate of the mesh for this frame.  A disposed sphere no longer
exists and is not moved. -/
def setY (yv : ℚ) (b : Spawned) : Spawned :=
  match b.sphere with
  | some p => { b with sphere := some ⟨p.x, yv, p.z⟩ }
  | none => b

/-- One frame of the render loop for one spawned sphere, with `yv` the
vertical position the physics simulation gives the sphere this frame:
the engine moves the body, then `scene.onBeforeRenderObservable` invokes
the observer of the sphere — but only while that observer is registered. -/
def frameStep (yv : ℚ) (b : Spawned) : Spawned :=
  if b.observerRegistered then stepCheck (setY yv b) else b

/-- `run y n b` runs `n` frames on body `b`, where the vertical
position of the sphere at frame `k` (0-based) is `y k`. -/
def run (y : ℕ → ℚ) : ℕ → Spawned → Spawned
  | 0, b => b
  | n + 1, b => frameStep (y n) (run y n b)

/-- Number of pre-render hooks held by one spawned body: 1 while its
observer is registered on `scene.onBeforeRenderObservable`, 0 after
removal. -/
def hookCount (b : Spawned) : ℕ :=
  if b.observerRegistered then 1 else 0

/-- The tracked state `spawnSphere` leaves behind at position `p`:
`sphere` freshly created (non-null) and the observer registered. -/
def spawn0 (p : Vec3) : Spawned :=
  { sphere := some p, observerRegistered := true }

/-- The physics configuration passed to `PhysicsAggregate`. -/
structure SpawnConfig where
  mass : ℚ
  restitution : ℚ
deriving DecidableEq, Repr

/-- Everything `spawnSphere` produces for one call. -/
structure SpawnResult where
  position : Vec3
  mass : ℚ
  restitution : ℚ
  appliedForces : List Vec3
  body : Spawned
deriving DecidableEq, Repr

/-- `spawnSphere` of the first variant (main.ts lines 104–125): creates a
sphere at `position`, builds its `PhysicsAggregate` with the constants
`mass: 1.0, restitution: 0.75` written inline in the function, applies the
single force `(Math.random() * 10, -1, Math.random() * 5)` — `r1`, `r2`
are the two `Math.random()` draws — and registers the disposal observer.
The TypeScript function takes only `position` and returns `undefined`. -/
def spawnSphere (position : Vec3) (r1 r2 : ℚ) : SpawnResult :=
  { position := position
    mass := 1
    restitution := 3 / 4
    appliedForces := [⟨r1 * 10, -1, r2 * 5⟩]
    body := spawn0 position }

/-- `spawnSphere` of the second variant (main.ts lines 316–338): identical
except for the inline constants `mass: 0.7, restitution: 0.7`. -/
def spawnSphereV2 (position : Vec3) (r1 r2 : ℚ) : SpawnResult :=
  { position := position
    mass := 7 / 10
    restitution := 7 / 10
    appliedForces := [⟨r1 * 10, -1, r2 * 5⟩]
    body := spawn0 position }

/-- The spawn interface as the specification words it:
`spawn(position, config) -> TrackedBody handle` with mass and restitution
taken from the caller-supplied `config`.  Used only to compare the
specified interface with the `spawnSphere` of the source. -/
def spawnSphereSpecInterface (position : Vec3) (config : SpawnConfig) (r1 r2 : ℚ) : SpawnResult :=
  { position := position
    mass := config.mass
    restitution := config.restitution
    appliedForces := [⟨r1 * 10, -1, r2 * 5⟩]
    body := spawn0 position }

/-- Identifier of one spawned body / of the observer the body registered
on `scene.onBeforeRenderObservable` (each `spawnSphere` call adds exactly
one observer, whose closure captures only the `sphere` and
`observer` variables of that body). -/
abbrev BodyId := ℕ

/-- Bodies of a scene, by id; the value is the `sphere` variable of the body
(`none` once disposed). -/
abbrev Bodies := List (BodyId × Option Vec3)

/-- Look up the `sphere` variable of a body by id (first matching entry). -/
def findBody : Bodies → BodyId → Option (Option Vec3)
  | [], _ => none
  | (k, v) :: rest, i => if k = i then some v else findBody rest i

/-- Overwrite the `sphere` variable of body `i` (first matching entry). -/
def setBody : Bodies → BodyId → Option Vec3 → Bodies
  | [], _, _ => []
  | (k, v) :: rest, i, v2 =>
      if k = i then (k, v2) :: rest else (k, v) :: setBody rest i v2

/-- `Observable.remove` on the Babylon observer list: removes the (first)
entry for the given observer. -/
def removeObs : List BodyId → BodyId → List BodyId
  | [], _ => []
  | k :: rest, i => if k = i then rest else k :: removeObs rest i

/-- A scene with several spawned bodies: the `sphere` variable of each body,
and the list of observers registered on
`scene.onBeforeRenderObservable` by the `spawnSphere` closures. -/
structure SceneSt where
  bodies : Bodies
  observers : List BodyId
deriving DecidableEq, Repr

/-- Running the observer that `spawnSphere` registered for body `i`
(main.ts lines 118–124), in the multi-body scene: the closure reads only
its own `sphere` variable, and on disposal nulls only that variable and
removes only its own observer. -/
def runObserver (i : BodyId) (s : SceneSt) : SceneSt :=
  match findBody s.bodies i with
  | some (some p) =>
      if p.y < -25 then
        { bodies := setBody s.bodies i none, observers := removeObs s.observers i }
      else s
  | some none => s
  | none => s

/-- The state of `UserInputManager`: whether the `DeviceSourceManager`
subscription is still active, and the number of callbacks registered on
each of the three click observables. -/
structure InputManagerState where
  deviceSourceActive : Bool
  leftSubs : ℕ
  centerSubs : ℕ
  rightSubs : ℕ
deriving DecidableEq, Repr

/-- `UserInputManager.dispose` (main.ts lines 76–84): disposes the
`DeviceSourceManager` and, for each of the three click observables,
cancels its coroutines and clears its observer list. -/
def inputDispose (_s : InputManagerState) : InputManagerState :=
  { deviceSourceActive := false, leftSubs := 0, centerSubs := 0, rightSubs := 0 }

/-- The application state relevant to teardown: the input manager and the
scene with its spawned bodies and their pre-render observers. -/
structure AppState where
  input : InputManagerState
  scene : SceneSt
deriving DecidableEq, Repr

/-- What the `App` constructor runs when the engine is disposed
(main.ts lines 155–157): the `addOnce` callback on
`engine.onDisposeObservable` calls `userInputManager.dispose()` — and
nothing else; no code touches the spawned bodies or their observers on
`scene.onBeforeRenderObservable`. -/
def onEngineDispose (s : AppState) : AppState :=
  { s with input := inputDispose s.input }

/-- Which rendering engine `App.createAsync` constructed. -/
inductive EngineKind where
  | webgpu
  | webgl
deriving DecidableEq, Repr

/-- `App.createAsync` (main.ts lines 160–182), with the two support
checks as inputs: if `WebGPUEngine.IsSupportedAsync`, construct a
`WebGPUEngine` and return the `App`; else if `Engine.IsSupported`,
construct the fallback `Engine` and return the `App`; otherwise
`throw new Error("Engine cannot be created.")`. -/
def createAsync (webgpuSupported webglSupported : Bool) : Except String EngineKind :=
  if webgpuSupported then Except.ok EngineKind.webgpu
  else if webglSupported then Except.ok EngineKind.webgl
  else Except.error "Engine cannot be created."

/-! ### Input-layer theorems -/

/-- C1: for every keyboard input event delivered to the router: a key
release (`type = "keyup"`) without the meta modifier fires exactly one
`Left` notification for codes `KeyA`/`ArrowLeft`, exactly one `Center`
for `KeyS`/`KeyW`/`ArrowUp`/`ArrowDown`, exactly one `Right` for
`KeyD`/`ArrowRight`, and nothing for any other code; a key press
(`type = "keydown"`) fires nothing, and any event with the meta modifier
held fires nothing. -/
theorem keyboard_routing (e : KeyboardEvent) :
    (e.metaKey = false → e.type = "keyup" →
      (((e.code = "KeyA" ∨ e.code = "ArrowLeft") → routeKeyboard e = [Trigger.left])
      ∧ ((e.code = "KeyS" ∨ e.code = "KeyW" ∨ e.code = "ArrowUp" ∨ e.code = "ArrowDown") →
          routeKeyboard e = [Trigger.center])
      ∧ ((e.code = "KeyD" ∨ e.code = "ArrowRight") → routeKeyboard e = [Trigger.right])
      ∧ (e.code ∉ (["KeyA", "ArrowLeft", "KeyS", "KeyW", "ArrowUp",
                    "ArrowDown", "KeyD", "ArrowRight"] : List String) →
          routeKeyboard e = [])))
    ∧ (e.type = "keydown" → routeKeyboard e = [])
    ∧ (e.metaKey = true → routeKeyboard e = []) := by
  obtain ⟨t, c, m⟩ := e
  refine ⟨?_, ?_, ?_⟩
  · intro hm ht
    simp only at hm ht
    subst hm; subst ht
    refine ⟨?_, ?_, ?_, ?_⟩
    · rintro (hc | hc) <;> simp only at hc <;> subst hc <;> rfl
    · rintro (hc | hc | hc | hc) <;> simp only at hc <;> subst hc <;> rfl
    · rintro (hc | hc) <;> simp only at hc <;> subst hc <;> rfl
    · intro hc
      simp only [List.mem_cons, List.not_mem_nil, or_false, not_or] at hc
      obtain ⟨h1, h2, h3, h4, h5, h6, h7, h8⟩ := hc
      simp [routeKeyboard, h1, h2, h3, h4, h5, h6, h7, h8]
  · intro ht
    simp only at ht
    subst ht
    cases m <;> simp [routeKeyboard]
  · intro hm
    simp only at hm
    subst hm
    simp [routeKeyboard]

/-- Witness for C1: concrete events of each class, routed by applying
`keyboard_routing`. -/
theorem keyboard_routing_witness :
    routeKeyboard ⟨"keyup", "KeyA", false⟩ = [Trigger.left]
    ∧ routeKeyboard ⟨"keyup", "ArrowUp", false⟩ = [Trigger.center]
    ∧ routeKeyboard ⟨"keyup", "ArrowRight", false⟩ = [Trigger.right]
    ∧ routeKeyboard ⟨"keyup", "Space", false⟩ = []
    ∧ routeKeyboard ⟨"keydown", "KeyA", false⟩ = []
    ∧ routeKeyboard ⟨"keyup", "KeyA", true⟩ = [] := by
  refine ⟨?_, ?_, ?_, ?_, ?_, ?_⟩
  · exact ((keyboard_routing ⟨"keyup", "KeyA", false⟩).1 rfl rfl).1 (Or.inl rfl)
  · exact ((keyboard_routing ⟨"keyup", "ArrowUp", false⟩).1 rfl rfl).2.1
      (Or.inr (Or.inr (Or.inl rfl)))
  · exact ((keyboard_routing ⟨"keyup", "ArrowRight", false⟩).1 rfl rfl).2.2.1 (Or.inr rfl)
  · exact ((keyboard_routing ⟨"keyup", "Space", false⟩).1 rfl rfl).2.2.2 (by decide)
  · exact (keyboard_routing ⟨"keydown", "KeyA", false⟩).2.1 rfl
  · exact (keyboard_routing ⟨"keyup", "KeyA", true⟩).2.2 rfl

/-- C3 counterexample: a pointer-button release ("pointerup") on the
mouse device fires no `Center` notification at all — the `Mouse` and
`Touch` cases of the device switch register no input handler, so the
claim that every pointer-button release fires a Center trigger is false
on this code. -/
theorem pointer_up_no_center_cex :
    deviceEventTriggers DeviceType.mouse (RawEvent.pointer "pointerup") = []
    ∧ Trigger.center ∉ deviceEventTriggers DeviceType.mouse (RawEvent.pointer "pointerup") := by
  exact ⟨rfl, by simp [deviceEventTriggers]⟩

/-- C3 (amended): pointer devices (mouse and touch) fire no trigger on
any event — the router registers no input listener for them. -/
theorem pointer_devices_no_trigger (e : RawEvent) :
    deviceEventTriggers DeviceType.mouse e = []
    ∧ deviceEventTriggers DeviceType.touch e = [] := by
  exact ⟨by cases e <;> rfl, by cases e <;> rfl⟩

/-- C8: `App.createAsync` errors (with the message
"Engine cannot be created.") exactly when neither WebGPU nor the fallback
engine is supported; with WebGPU supported it returns the WebGPU app, and
with only the fallback supported it returns the fallback app. -/
theorem createAsync_engine_selection (w g : Bool) :
    (createAsync w g = Except.error "Engine cannot be created." ↔ w = false ∧ g = false)
    ∧ (w = true → createAsync w g = Except.ok EngineKind.webgpu)
    ∧ (w = false → g = true → createAsync w g = Except.ok EngineKind.webgl) := by
  cases w <;> cases g <;> simp [createAsync]

/-- Witness for C8: `createAsync_engine_selection` at the three concrete
support configurations. -/
theorem createAsync_engine_selection_witness :
    createAsync false false = Except.error "Engine cannot be created."
    ∧ createAsync true false = Except.ok EngineKind.webgpu
    ∧ createAsync false true = Except.ok EngineKind.webgl :=
  ⟨(createAsync_engine_selection false false).1.mpr ⟨rfl, rfl⟩,
   (createAsync_engine_selection true false).2.1 rfl,
   (createAsync_engine_selection false true).2.2 rfl rfl⟩

/-! ### Spawn theorems -/

/-- C4 counterexample: the mass of a spawned body is the inline constant
1.0 (0.7 in the second variant), not a value taken from a caller-supplied
config: at position `(0,15,0)` the body built by the
`spawnSphere` of the source differs in mass from the body the specified interface
`spawn(position, config)` would build for the config
`mass = 2, restitution = 1/2`. -/
theorem spawn_config_hardcoded_cex :
    (spawnSphere ⟨0, 15, 0⟩ 0 0).mass = 1
    ∧ (spawnSphereV2 ⟨0, 15, 0⟩ 0 0).mass = 7 / 10
    ∧ (spawnSphere ⟨0, 15, 0⟩ 0 0).mass
        ≠ (spawnSphereSpecInterface ⟨0, 15, 0⟩ ⟨2, 1 / 2⟩ 0 0).mass := by
  refine ⟨rfl, rfl, ?_⟩
  simp [spawnSphere, spawnSphereSpecInterface]

/-- C4 (amended): `spawnSphere` takes only a position; it creates the
body at that position with the mass and restitution constants written
inline in the function (1.0 and 0.75 in the first variant, 0.7 and 0.7 in
the second), registers the disposal observer, and returns nothing to the
caller. -/
theorem spawn_uses_inline_constants (p : Vec3) (r1 r2 : ℚ) :
    (spawnSphere p r1 r2).position = p
    ∧ (spawnSphere p r1 r2).mass = 1
    ∧ (spawnSphere p r1 r2).restitution = 3 / 4
    ∧ (spawnSphere p r1 r2).body = { sphere := some p, observerRegistered := true }
    ∧ (spawnSphereV2 p r1 r2).mass = 7 / 10
    ∧ (spawnSphereV2 p r1 r2).restitution = 7 / 10 :=
  ⟨rfl, rfl, rfl, rfl, rfl, rfl⟩

/-- C9: each spawn applies exactly one force, at spawn time, equal to
`(r1 * 10, -1, r2 * 5)` for the two random draws `r1, r2`; for draws in
`[0, 1)` its vertical component is the constant −1 and its horizontal
components are non-negative (and bounded by 10 and 5), in both variants. -/
theorem initial_force_once_and_biased (p : Vec3) (r1 r2 : ℚ)
    (h1 : 0 ≤ r1) (h1u : r1 < 1) (h2 : 0 ≤ r2) (h2u : r2 < 1) :
    (spawnSphere p r1 r2).appliedForces = [⟨r1 * 10, -1, r2 * 5⟩]
    ∧ (spawnSphereV2 p r1 r2).appliedForces = [⟨r1 * 10, -1, r2 * 5⟩]
    ∧ (spawnSphere p r1 r2).appliedForces.length = 1
    ∧ ∀ f ∈ (spawnSphere p r1 r2).appliedForces,
        f.y = -1 ∧ 0 ≤ f.x ∧ f.x < 10 ∧ 0 ≤ f.z ∧ f.z < 5 := by
  refine ⟨rfl, rfl, rfl, ?_⟩
  intro f hf
  simp only [spawnSphere, List.mem_singleton] at hf
  subst hf
  refine ⟨rfl, ?_, ?_, ?_, ?_⟩
  · show (0 : ℚ) ≤ r1 * 10
    positivity
  · show r1 * 10 < 10
    nlinarith
  · show (0 : ℚ) ≤ r2 * 5
    positivity
  · show r2 * 5 < 5
    nlinarith

/-- Witness for C9: `initial_force_once_and_biased` at the concrete draws
`r1 = 1/2`, `r2 = 1/3`. -/
theorem initial_force_once_and_biased_witness :
    (spawnSphere ⟨0, 15, 0⟩ (1 / 2) (1 / 3)).appliedForces
      = [⟨(1 / 2) * 10, -1, (1 / 3) * 5⟩] :=
  (initial_force_once_and_biased ⟨0, 15, 0⟩ (1 / 2) (1 / 3)
    (by norm_num) (by norm_num) (by norm_num) (by norm_num)).1

/-! ### Lifecycle helper lemmas -/

/-- One frame never increases the number of registered pre-render
hooks of a body. -/
theorem hookCount_frameStep_le (v : ℚ) (b : Spawned) :
    hookCount (frameStep v b) ≤ hookCount b := by
  rcases b with ⟨s, r⟩
  cases r
  · simp [frameStep, hookCount]
  · cases s with
    | none => simp [frameStep, setY, stepCheck, hookCount]
    | some p =>
        by_cases h : v < -25 <;> simp [frameStep, setY, stepCheck, hookCount, h]

/-- A frame leaves a disposed body (null `sphere` variable) unchanged. -/
theorem frameStep_disposed (v : ℚ) (b : Spawned) (hb : b.sphere = none) :
    frameStep v b = b := by
  rcases b with ⟨s, r⟩
  simp only at hb
  subst hb
  cases r <;> simp [frameStep, setY, stepCheck]

/-- Once a run has reached a disposed state, further frames change
nothing. -/
theorem run_disposed_stable (y : ℕ → ℚ) (b : Spawned) (m k : ℕ)
    (h : (run y m b).sphere = none) :
    run y (m + k) b = run y m b := by
  induction k with
  | zero => rfl
  | succ k ih =>
      show frameStep (y (m + k)) (run y (m + k) b) = run y m b
      rw [ih]
      exact frameStep_disposed _ _ h

/-- The hook count is antitone along a run. -/
theorem hookCount_run_le (y : ℕ → ℚ) (b : Spawned) (n m : ℕ) (h : n ≤ m) :
    hookCount (run y m b) ≤ hookCount (run y n b) := by
  induction h with
  | refl => exact le_rfl
  | step h ih => exact le_trans (hookCount_frameStep_le _ _) ih

/-- Invariant of the closure: once the `sphere` variable is null, the
observer has been removed. -/
def SpInv (b : Spawned) : Prop :=
  b.sphere = none → b.observerRegistered = false

/-- One frame preserves the invariant `SpInv`. -/
theorem spInv_frameStep (v : ℚ) (b : Spawned) (hb : SpInv b) :
    SpInv (frameStep v b) := by
  rcases b with ⟨s, r⟩
  cases s with
  | none =>
      have hr : r = false := hb rfl
      subst hr
      intro _
      rfl
  | some p =>
      cases r with
      | false =>
          intro hcontra
          simp [frameStep] at hcontra
      | true =>
          by_cases h : v < -25 <;> intro hs <;>
            simp [frameStep, setY, stepCheck, h] at hs ⊢

/-- The invariant holds in every state reachable from a fresh spawn. -/
theorem spInv_run (y : ℕ → ℚ) (p : Vec3) (m : ℕ) :
    SpInv (run y m (spawn0 p)) := by
  induction m with
  | zero =>
      intro hs
      simp [run, spawn0] at hs
  | succ m ih => exact spInv_frameStep _ _ ih

/-- While the vertical position has never been strictly below −25, the
body is still live and its observer registered. -/
theorem live_run (y : ℕ → ℚ) (p : Vec3) (m : ℕ)
    (h : ∀ k, k < m → ¬ (y k < -25)) :
    ∃ q : Vec3, run y m (spawn0 p) = { sphere := some q, observerRegistered := true } := by
  induction m with
  | zero => exact ⟨p, rfl⟩
  | succ m ih =>
      obtain ⟨q, hq⟩ := ih (fun k hk => h k (Nat.lt_succ_of_lt hk))
      refine ⟨⟨q.x, y m, q.z⟩, ?_⟩
      show frameStep (y m) (run y m (spawn0 p)) = _
      rw [hq]
      have hm : ¬ (y m < -25) := h m (Nat.lt_succ_self m)
      simp [frameStep, setY, stepCheck, hm]

/-! ### Lifecycle theorems -/

/-- C2: the disposal check removes the body and deregisters its observer
in one action when it observes the position below −25
(`stepCheck` maps any live body below the threshold to the disposed
state); on an already-disposed body it is a no-op; the hook count starts
at 1 at spawn, never increases along a run, is 0 exactly once the body is
disposed (so it decreases by exactly one over the lifetime), and the
disposed state is terminal. -/
theorem disposal_exactly_once (p : Vec3) (y : ℕ → ℚ) :
    (∀ b q, b.sphere = some q → q.y < -25 →
        stepCheck b = { sphere := none, observerRegistered := false })
    ∧ (∀ b, b.sphere = none → stepCheck b = b)
    ∧ hookCount (spawn0 p) = 1
    ∧ (∀ n m, n ≤ m →
        hookCount (run y m (spawn0 p)) ≤ hookCount (run y n (spawn0 p)))
    ∧ (∀ m, (run y m (spawn0 p)).sphere = none →
        hookCount (run y m (spawn0 p)) = 0)
    ∧ (∀ m k, (run y m (spawn0 p)).sphere = none →
        run y (m + k) (spawn0 p) = run y m (spawn0 p)) := by
  refine ⟨?_, ?_, rfl, ?_, ?_, ?_⟩
  · intro b q hb hq
    rcases b with ⟨s, r⟩
    simp only at hb
    subst hb
    simp [stepCheck, hq]
  · intro b hb
    rcases b with ⟨s, r⟩
    simp only at hb
    subst hb
    rfl
  · exact fun n m h => hookCount_run_le y (spawn0 p) n m h
  · intro m hm
    have hreg := spInv_run y p m hm
    simp [hookCount, hreg]
  · exact fun m k hm => run_disposed_stable y (spawn0 p) m k hm

/-- Witness for C2: a body at height −30 is disposed and deregistered in
one check; the check is a no-op on the disposed state; after disposal
(frame 0 of a trajectory constantly at −30) the hook count is 0 and
further frames change nothing. -/
theorem disposal_exactly_once_witness :
    stepCheck { sphere := some ⟨0, -30, 0⟩, observerRegistered := true }
      = { sphere := none, observerRegistered := false }
    ∧ stepCheck { sphere := none, observerRegistered := false }
      = { sphere := none, observerRegistered := false }
    ∧ hookCount (run (fun _ => -30) 2 (spawn0 ⟨0, 15, 0⟩)) = 0
    ∧ run (fun _ => -30) (1 + 2) (spawn0 ⟨0, 15, 0⟩)
      = run (fun _ => -30) 1 (spawn0 ⟨0, 15, 0⟩) := by
  obtain ⟨h1, h2, _, _, h5, h6⟩ := disposal_exactly_once ⟨0, 15, 0⟩ (fun _ => -30)
  refine ⟨h1 _ ⟨0, -30, 0⟩ rfl (by norm_num), h2 _ rfl, h5 2 (by decide), h6 1 2 (by decide)⟩

/-- C6: for a body spawned at (0, 15, 0), along any monotonically
decreasing trajectory whose first strict crossing of −25 is at step `N`
(so `y N < -25` and no earlier step is below), the body is live with its
observer registered after every `m ≤ N` frames, and the frame that reads
`y N` — the first check observing `Y < -25` — disposes it. -/
theorem first_crossing_disposal (y : ℕ → ℚ) (N : ℕ) (_hmono : Antitone y)
    (hN : y N < -25) (hbefore : ∀ k, k < N → ¬ (y k < -25)) :
    (∀ m, m ≤ N → (run y m (spawn0 ⟨0, 15, 0⟩)).sphere ≠ none
        ∧ (run y m (spawn0 ⟨0, 15, 0⟩)).observerRegistered = true)
    ∧ run y (N + 1) (spawn0 ⟨0, 15, 0⟩)
        = { sphere := none, observerRegistered := false } := by
  have hlive : ∀ m, m ≤ N →
      ∃ q : Vec3, run y m (spawn0 ⟨0, 15, 0⟩)
        = { sphere := some q, observerRegistered := true } := by
    intro m hm
    exact live_run y ⟨0, 15, 0⟩ m (fun k hk => hbefore k (lt_of_lt_of_le hk hm))
  constructor
  · intro m hm
    obtain ⟨q, hq⟩ := hlive m hm
    rw [hq]
    exact ⟨by simp, rfl⟩
  · obtain ⟨q, hq⟩ := hlive N le_rfl
    show frameStep (y N) (run y N (spawn0 ⟨0, 15, 0⟩)) = _
    rw [hq]
    simp [frameStep, setY, stepCheck, hN]

/-- Witness for C6: the trajectory `y n = 15 − 10 n` first drops below
−25 at step 5 (`y 4 = −25` is not a crossing, strict inequality); the
body is still live after 5 frames and disposed after 6. -/
theorem first_crossing_disposal_witness :
    (run (fun n => 15 - 10 * n) 5 (spawn0 ⟨0, 15, 0⟩)).sphere ≠ none
    ∧ run (fun n => 15 - 10 * n) (5 + 1) (spawn0 ⟨0, 15, 0⟩)
      = { sphere := none, observerRegistered := false } := by
  have hmono : Antitone (fun n : ℕ => (15 : ℚ) - 10 * n) := by
    intro a b hab
    have : (a : ℚ) ≤ b := Nat.cast_le.mpr hab
    simp only
    linarith
  have h := first_crossing_disposal (fun n => 15 - 10 * n) 5 hmono
    (by norm_num)
    (by
      intro k hk
      interval_cases k <;> norm_num)
  exact ⟨(h.1 5 le_rfl).1, h.2⟩

/-- C10: the disposal callback is total and never touches a disposed
body: on a null `sphere` it returns unchanged without reading the
position (`stepCheckAccess` reports no access), its result always agrees
with `stepCheck`, and it reads the position only when the handle is
non-null. -/
theorem stepCheck_no_use_after_dispose :
    (∀ b, b.sphere = none → stepCheckAccess b = (b, false))
    ∧ (∀ b, (stepCheckAccess b).1 = stepCheck b)
    ∧ (∀ b q, b.sphere = some q → (stepCheckAccess b).2 = true) := by
  refine ⟨?_, ?_, ?_⟩
  · intro b hb
    rcases b with ⟨s, r⟩
    simp only at hb
    subst hb
    rfl
  · intro b
    rcases b with ⟨s, r⟩
    cases s with
    | none => rfl
    | some p => by_cases h : p.y < -25 <;> simp [stepCheckAccess, stepCheck, h]
  · intro b q hb
    rcases b with ⟨s, r⟩
    simp only at hb
    subst hb
    rfl

/-- Witness for C10: the callback on a disposed body performs no access
and no change; on a live body below threshold it does read the
position. -/
theorem stepCheck_no_use_after_dispose_witness :
    stepCheckAccess { sphere := none, observerRegistered := false }
      = ({ sphere := none, observerRegistered := false }, false)
    ∧ (stepCheckAccess { sphere := some ⟨0, -30, 0⟩, observerRegistered := true }).2 = true :=
  ⟨stepCheck_no_use_after_dispose.1 _ rfl,
   stepCheck_no_use_after_dispose.2.2 _ ⟨0, -30, 0⟩ rfl⟩

/-! ### Multi-body independence and teardown -/

/-- Overwriting body `i` does not change the lookup of a different
body `j`. -/
theorem findBody_setBody_ne (bs : Bodies) (i j : BodyId) (v : Option Vec3)
    (hij : i ≠ j) :
    findBody (setBody bs i v) j = findBody bs j := by
  induction bs with
  | nil => rfl
  | cons kv rest ih =>
      obtain ⟨k, w⟩ := kv
      by_cases hk : k = i
      · subst hk
        simp [setBody, findBody, hij]
      · simp [setBody, findBody, hk, ih]

/-- Removing observer `i` keeps the multiplicity of a different
observer `j`. -/
theorem count_removeObs_ne (l : List BodyId) (i j : BodyId) (hij : i ≠ j) :
    (removeObs l i).count j = l.count j := by
  induction l with
  | nil => rfl
  | cons k rest ih =>
      by_cases hk : k = i
      · subst hk
        simp [removeObs, List.count_cons, ih, Ne.symm hij]
      · simp [removeObs, hk, List.count_cons, ih]

/-- C7: running the step-observer of body `i` (whose closure captures only
the handle of body `i`) leaves every other body `j` untouched: the
`sphere` variable of `j` (hence its live/disposed state) and the
registration multiplicity of the step-observer of `j` are unchanged, whether or not the
check disposes body `i`. -/
theorem bodies_independent (s : SceneSt) (i j : BodyId) (hij : i ≠ j) :
    findBody (runObserver i s).bodies j = findBody s.bodies j
    ∧ (runObserver i s).observers.count j = s.observers.count j := by
  unfold runObserver
  cases hfb : findBody s.bodies i with
  | none => exact ⟨rfl, rfl⟩
  | some ov =>
      cases ov with
      | none => exact ⟨rfl, rfl⟩
      | some p =>
          by_cases hy : p.y < -25
          · simp [hy, findBody_setBody_ne _ _ _ _ hij, count_removeObs_ne _ _ _ hij]
          · simp [hy]

/-- The scene of the C7 witness: body 1 below the −25 threshold, body 2
well above it, both observers registered. -/
def sceneTwoBodies : SceneSt :=
  { bodies := [(1, some ⟨0, -30, 0⟩), (2, some ⟨0, 4, 0⟩)]
    observers := [1, 2] }

/-- Witness for C7: in `sceneTwoBodies`, running the observer of body 1
disposes body 1 and removes its observer, while the entry and the
observer registration of body 2 are exactly preserved. -/
theorem bodies_independent_witness :
    findBody (runObserver 1 sceneTwoBodies).bodies 2 = findBody sceneTwoBodies.bodies 2
    ∧ (runObserver 1 sceneTwoBodies).observers.count 2 = sceneTwoBodies.observers.count 2
    ∧ runObserver 1 sceneTwoBodies
      = { bodies := [(1, none), (2, some ⟨0, 4, 0⟩)], observers := [2] } := by
  refine ⟨(bodies_independent sceneTwoBodies 1 2 (by decide)).1,
          (bodies_independent sceneTwoBodies 1 2 (by decide)).2, by decide⟩

/-- C5 counterexample: in an application state with one still-live
spawned body whose step-observer is registered, engine disposal (which
runs only `userInputManager.dispose()`) leaves that step-observer
registered and the body in the world — the claim that shutdown
deregisters the step-observer of every still-live body is false on this
code. -/
theorem engine_dispose_keeps_step_observers_cex :
    (onEngineDispose
        { input := { deviceSourceActive := true, leftSubs := 1, centerSubs := 1, rightSubs := 1 }
          scene := { bodies := [(0, some ⟨0, 15, 0⟩)], observers := [0] } }).scene.observers
      = [0]
    ∧ (onEngineDispose
        { input := { deviceSourceActive := true, leftSubs := 1, centerSubs := 1, rightSubs := 1 }
          scene := { bodies := [(0, some ⟨0, 15, 0⟩)], observers := [0] } }).scene.observers
      ≠ [] := by
  exact ⟨rfl, by decide⟩

/-- C5 (amended): engine disposal tears down only the input side — the
device-source subscription and the three click-observable subscriber
lists are cleared — while the scene is left exactly as it was: spawned
bodies stay in the world and their step-observers stay registered. -/
theorem engine_dispose_clears_input_only (s : AppState) :
    (onEngineDispose s).scene = s.scene
    ∧ (onEngineDispose s).input
      = { deviceSourceActive := false, leftSubs := 0, centerSubs := 0, rightSubs := 0 } :=
  ⟨rfl, rfl⟩

end Pachinko
